import Mathlib

/-!
# Widget Context Bridge — shallow embedding

A Lean model of the React hook package in `packages/react/src/useWidget.ts`
(together with the `window.openai` surface declared in
`packages/react/src/types.ts`).  The bridge reads a host-injected global
object (`window.openai`), exposes its fields reactively to UI code, and
forwards a small action surface back to the host.

Modelling conventions:
* `window.openai` being absent (or `window` itself being undefined) is the
  `none` case of an `Option (WindowOpenAI ..)`; every access in the source
  goes through `typeof window !== "undefined" && window.openai ? ... :
  undefined` or an optional chain `window.openai?.x`, both captured by
  `winGet`.
* JavaScript `undefined`/`null` field values are `Option.none`.
* Host-provided async actions are pure functions returning `Except ε α`:
  `Except.error e` stands for the host's promise rejecting with `e` (or a
  synchronous throw for `openExternal`).
* Side effects of a bridge action are made observable as a trace of
  `HostCall`s plus the (possibly updated) component instance; React's
  `setLocalState` is explicit state passing on `WidgetInst`.
* The DOM event plumbing of `useOpenAiGlobal` (an `openai:set_globals`
  `CustomEvent` listener per subscription) is a registered-listener list on
  an `EventTarget`; dispatching an event returns the list of listeners whose
  `onChange` invalidation callback fired.
-/

namespace WidgetBridge

/-- Type `Theme` from `types.ts`: `"light" | "dark"`. -/
inductive Theme where
  | light
  | dark
deriving DecidableEq, Repr

/-- Type `DisplayMode` from `types.ts`: `"pip" | "inline" | "fullscreen"`. -/
inductive DisplayMode where
  | pip
  | inlineMode
  | fullscreen
deriving DecidableEq, Repr

/-- Opaque JavaScript values appearing in props / globals payloads. -/
inductive JsVal where
  | str (s : String)
  | num (n : Int)
  | boolean (b : Bool)
deriving DecidableEq, Repr

/-- A JS object used as a props mapping (`toolInput`, defaults, `{}`). -/
def Props := List (String × JsVal)
deriving DecidableEq, Repr

/-- One entry of `CallToolResponse.content`. -/
structure ContentItem where
  type : String
  text : Option String
deriving DecidableEq, Repr

/-- Type `CallToolResponse` from `types.ts`. -/
structure CallToolResponse where
  content : List ContentItem
  isError : Option Bool
deriving DecidableEq, Repr

/-- The `window.openai` global surface (`WindowOpenAI` in `types.ts`):
optional data fields plus optional host actions.  `TState` is the widget
state type, `ε` the type of host-side failures (promise rejections). -/
structure WindowOpenAI (TState ε : Type) where
  theme : Option Theme := none
  displayMode : Option DisplayMode := none
  locale : Option String := none
  toolInput : Option Props := none
  toolOutput : Option JsVal := none
  widgetState : Option TState := none
  callTool : Option (String → Props → Except ε CallToolResponse) := none
  sendFollowUpMessage : Option (String → Except ε Unit) := none
  openExternal : Option (String → Except ε Unit) := none
  requestDisplayMode : Option (DisplayMode → Except ε DisplayMode) := none
  setWidgetState : Option (TState → Except ε Unit) := none

variable {TState ε α : Type}

/-- Reading a field off the possibly-absent global: models both
`typeof window !== "undefined" && window.openai ? window.openai[key] :
undefined` (the `useOpenAiGlobal` snapshot) and the optional chain
`window.openai?.method`. -/
def winGet (host : Option (WindowOpenAI TState ε))
    (field : WindowOpenAI TState ε → Option α) : Option α :=
  match host with
  | none => none
  | some o => field o

/-- A mounted widget component instance: the host global visible to it and
the `localState` mirror held by `useState` (`null` = `none`). -/
structure WidgetInst (TState ε : Type) where
  host : Option (WindowOpenAI TState ε)
  localState : Option TState

/-- Source `useState<TState | null>(widgetState ?? null)` — the mirror's initial
value (useWidget.ts lines 99–101). -/
def initLocalState (host : Option (WindowOpenAI TState ε)) : Option TState :=
  winGet host (fun o => o.widgetState)

/-- The `useEffect` of `useWidget` (lines 104–108): if the `widgetState`
snapshot is defined, `setLocalState(widgetState)`. -/
def syncWidgetStateEffect (inst : WidgetInst TState ε) : WidgetInst TState ε :=
  match winGet inst.host (fun o => o.widgetState) with
  | some v => { inst with localState := some v }
  | none => inst

/-- One observable call into a host action, for side-effect traces. -/
inductive HostCall (TState : Type) where
  | callTool (name : String) (args : Props)
  | sendFollowUpMessage (prompt : String)
  | openExternal (href : String)
  | requestDisplayMode (mode : DisplayMode)
  | setWidgetState (state : TState)
deriving DecidableEq, Repr

/-- What a bridge action can throw: the source's
`new Error("window.openai.X is not available")` (the spec's single
`HostUnavailable` error kind, carrying the message), or a failure
propagated from the delegated host action. -/
inductive BridgeError (ε : Type) where
  | hostUnavailable (message : String)
  | hostFailure (e : ε)
deriving DecidableEq, Repr

/-- Pass-through of a delegated host action's outcome: a success is
returned as is, a host failure propagates to the caller unwrapped (tagged
only with the error channel it arrived on). -/
def liftHost : Except ε α → Except (BridgeError ε) α
  | .ok a => .ok a
  | .error e => .error (.hostFailure e)

/-- Outcome of invoking one of the bridge's delegating actions: the
resulting component instance, the trace of host calls made, and the value
returned / error thrown. -/
structure ActionOut (TState ε α : Type) where
  inst : WidgetInst TState ε
  calls : List (HostCall TState)
  result : Except (BridgeError ε) α

/-- Action `callTool` (useWidget.ts lines 111–122): throws when
`window.openai?.callTool` is unavailable, else delegates. -/
def callTool (inst : WidgetInst TState ε) (name : String) (args : Props) :
    ActionOut TState ε CallToolResponse :=
  match winGet inst.host (fun o => o.callTool) with
  | none =>
      { inst := inst, calls := [],
        result := .error
          (.hostUnavailable "window.openai.callTool is not available") }
  | some f =>
      { inst := inst, calls := [HostCall.callTool name args],
        result := liftHost (f name args) }

/-- Action `sendFollowUpMessage` (lines 124–135): throws when unavailable, else
delegates with `{ prompt }`. -/
def sendFollowUpMessage (inst : WidgetInst TState ε) (prompt : String) :
    ActionOut TState ε Unit :=
  match winGet inst.host (fun o => o.sendFollowUpMessage) with
  | none =>
      { inst := inst, calls := [],
        result := .error
          (.hostUnavailable "window.openai.sendFollowUpMessage is not available") }
  | some f =>
      { inst := inst, calls := [HostCall.sendFollowUpMessage prompt],
        result := liftHost (f prompt) }

/-- Action `openExternal` (lines 137–142): synchronous; throws when unavailable,
else delegates with `{ href }`. -/
def openExternal (inst : WidgetInst TState ε) (href : String) :
    ActionOut TState ε Unit :=
  match winGet inst.host (fun o => o.openExternal) with
  | none =>
      { inst := inst, calls := [],
        result := .error
          (.hostUnavailable "window.openai.openExternal is not available") }
  | some f =>
      { inst := inst, calls := [HostCall.openExternal href],
        result := liftHost (f href) }

/-- Action `requestDisplayMode` (lines 144–152): throws when unavailable, else
delegates with `{ mode }` and returns the mode the host granted. -/
def requestDisplayMode (inst : WidgetInst TState ε) (mode : DisplayMode) :
    ActionOut TState ε DisplayMode :=
  match winGet inst.host (fun o => o.requestDisplayMode) with
  | none =>
      { inst := inst, calls := [],
        result := .error
          (.hostUnavailable "window.openai.requestDisplayMode is not available") }
  | some f =>
      { inst := inst, calls := [HostCall.requestDisplayMode mode],
        result := liftHost (f mode) }

/-- Argument to `setState`: `TState | ((prevState: TState | null) => TState)`.
The source's `typeof stateOrUpdater === "function"` test is this sum's
constructor tag. -/
inductive StateOrUpdater (TState : Type) where
  | value (v : TState)
  | updater (f : Option TState → TState)

/-- Outcome of `setState`: updated instance, host-call trace, and the
promise's completion (`setState` itself never throws `HostUnavailable`). -/
structure SetStateOut (TState ε : Type) where
  inst : WidgetInst TState ε
  calls : List (HostCall TState)
  result : Except ε Unit

/-- Action `setState` (lines 154–173): compute the new state (applying an updater
to the current mirror), then either just update the mirror when
`window.openai?.setWidgetState` is unavailable, or update the mirror and
delegate persistence, returning the host's completion. -/
def setState (inst : WidgetInst TState ε) (su : StateOrUpdater TState) :
    SetStateOut TState ε :=
  let newState :=
    match su with
    | .updater f => f inst.localState
    | .value v => v
  match winGet inst.host (fun o => o.setWidgetState) with
  | none =>
      { inst := { inst with localState := some newState },
        calls := [], result := .ok () }
  | some act =>
      { inst := { inst with localState := some newState },
        calls := [HostCall.setWidgetState newState],
        result := act newState }

/-- The record `useWidget` returns (lines 175–196), restricted to its pure
projections: props, theme, display mode, locale, the state mirror, and the
availability flag. -/
structure UseWidgetView (TState : Type) where
  props : Props
  theme : Theme
  displayMode : DisplayMode
  locale : String
  state : Option TState
  isAvailable : Bool

/-- Projections of `useWidget`: `props := toolInput ?? defaultProps ?? {}`,
`theme ?? "light"`, `displayMode ?? "inline"`, `locale ?? "en"`, the current
mirror, and `isAvailable := typeof window !== "undefined" && !!window.openai`
(line 89). -/
def useWidgetView (host : Option (WindowOpenAI TState ε))
    (defaultProps : Option Props) (localState : Option TState) :
    UseWidgetView TState :=
  { props := (winGet host (fun o => o.toolInput)).getD (defaultProps.getD [])
    theme := (winGet host (fun o => o.theme)).getD Theme.light
    displayMode := (winGet host (fun o => o.displayMode)).getD DisplayMode.inlineMode
    locale := (winGet host (fun o => o.locale)).getD "en"
    state := localState
    isAvailable := host.isSome }

/-! ## The `openai:set_globals` subscription mechanism (`useOpenAiGlobal`) -/

/-- Field names of the global object, as used for subscription keys. -/
inductive GlobalKey where
  | theme
  | displayMode
  | locale
  | toolInput
  | toolOutput
  | widgetState
deriving DecidableEq, Repr

/-- The `detail` of an `openai:set_globals` `CustomEvent`: a partial
mapping of changed field names to new values.  An entry `(k, none)` is a
field explicitly mapped to `undefined`; an absent key is an omitted field —
`globals[key]` is `undefined` in both cases. -/
structure SetGlobalsDetail where
  globals : List (GlobalKey × Option JsVal)
deriving DecidableEq, Repr

/-- Lookup `globals[key]` on the event payload. -/
def globalsGet : List (GlobalKey × Option JsVal) → GlobalKey → Option JsVal
  | [], _ => none
  | (k', v) :: rest, k => if k' = k then v else globalsGet rest k

/-- Handler `handleSetGlobal` (lines 26–34) for a subscription on `key`, given an
event whose `detail` may be absent: `true` iff `detail?.globals[key]` is
defined, i.e. iff `onChange` is invoked. -/
def handleSetGlobal (key : GlobalKey) (detail : Option SetGlobalsDetail) :
    Bool :=
  match detail with
  | none => false
  | some d => (globalsGet d.globals key).isSome

/-- One registered `openai:set_globals` listener: the `handleSetGlobal`
closure of a subscription on `key`.  `id` identifies the closure so that
`removeEventListener` removes exactly the listeners of that subscription. -/
structure Listener where
  id : Nat
  key : GlobalKey
deriving DecidableEq, Repr

/-- The `window` event target: its `openai:set_globals` listeners in
registration (FIFO) order. -/
structure EventTarget where
  listeners : List Listener
deriving DecidableEq, Repr

/-- Call `window.addEventListener(SET_GLOBALS_EVENT_TYPE, handleSetGlobal)` in
the subscribe function (lines 36–38). -/
def addEventListener (w : EventTarget) (l : Listener) : EventTarget :=
  { listeners := w.listeners ++ [l] }

/-- Call `window.removeEventListener(SET_GLOBALS_EVENT_TYPE, handleSetGlobal)`
in the unsubscribe function (lines 40–44): the listeners of subscription
`i` are removed. -/
def removeEventListener (w : EventTarget) (i : Nat) : EventTarget :=
  { listeners := w.listeners.filter (fun l => l.id != i) }

/-- Dispatching an `openai:set_globals` event: every registered listener
runs `handleSetGlobal`, in registration order; the returned list holds
exactly the listeners whose `onChange` invalidation callback fired. -/
def dispatchSetGlobals (w : EventTarget) (detail : Option SetGlobalsDetail) :
    List Listener :=
  w.listeners.filter (fun l => handleSetGlobal l.key detail)

/-! ## Mounting a component that uses `useWidgetState` -/

/-- Result of mounting: the instance after all mount effects ran, plus the
trace of host calls made during mount. -/
structure MountOut (TState ε : Type) where
  inst : WidgetInst TState ε
  calls : List (HostCall TState)

/-- Mounting a component calling `useWidgetState(defaultState)` (lines
236–258): the mirror starts as `widgetState ?? null`; the sync effect of
`useWidget` runs; then the mount-only effect runs `setState(defaultState)`
iff the mirror is `null`, a default was supplied, and
`window.openai?.setWidgetState` is available. -/
def mountWidgetState (host : Option (WindowOpenAI TState ε))
    (defaultState : Option TState) : MountOut TState ε :=
  let inst0 : WidgetInst TState ε :=
    { host := host, localState := initLocalState host }
  let inst1 := syncWidgetStateEffect inst0
  match inst1.localState, defaultState, winGet host (fun o => o.setWidgetState) with
  | none, some d, some _ =>
      let out := setState inst1 (.value d)
      { inst := out.inst, calls := out.calls }
  | _, _, _ => { inst := inst1, calls := [] }

/-! ## Claims -/

/-- The replacement-or-updater computation the spec describes for
`setState`: an updater is applied to the previous mirrored value (`none` =
never initialized), a literal is taken as is. -/
def applyStateOrUpdater (su : StateOrUpdater TState) (prev : Option TState) :
    TState :=
  match su with
  | .updater f => f prev
  | .value v => v

/-- C1: with the host absent or its persistence action absent,
`setState(5)` followed immediately by `setState(prev => prev + 1)` leaves
the mirror at `6`; the second call's updater receives `5` (the up-to-date
mirror), whatever the updater is. -/
theorem setState_seq_reads_updated_mirror (inst : WidgetInst Int ε)
    (h : winGet inst.host (fun o => o.setWidgetState) = none)
    (f : Option Int → Int) :
    (setState (setState inst (.value 5)).inst (.updater f)).inst.localState
        = some (f (some 5)) ∧
    (setState (setState inst (.value 5)).inst
        (.updater (fun prev => prev.getD 0 + 1))).inst.localState = some 6 := by
  simp [setState, h]

/-- C1 witness: a concrete standalone instance (no host at all). -/
theorem setState_seq_reads_updated_mirror_witness :
    (setState (setState ({ host := none, localState := none } :
          WidgetInst Int Unit) (.value 5)).inst
        (.updater (fun prev => prev.getD 0 + 1))).inst.localState = some 6 :=
  (setState_seq_reads_updated_mirror
      { host := none, localState := none } rfl (fun prev => prev.getD 0 + 1)).2

/-- C2: `setState` computes the new value by applying an updater to the
previous mirror (or taking a literal as is), always updates the mirror to
that value, and then: when `window.openai?.setWidgetState` is available it
is called exactly once with the new value and its completion is returned;
when it is unavailable, no host call happens and `setState` completes
successfully. -/
theorem setState_contract (inst : WidgetInst TState ε)
    (su : StateOrUpdater TState) :
    (setState inst su).inst.localState
        = some (applyStateOrUpdater su inst.localState) ∧
    (setState inst su).inst.host = inst.host ∧
    (∀ act, winGet inst.host (fun o => o.setWidgetState) = some act →
        (setState inst su).calls
            = [HostCall.setWidgetState (applyStateOrUpdater su inst.localState)] ∧
        (setState inst su).result
            = act (applyStateOrUpdater su inst.localState)) ∧
    (winGet inst.host (fun o => o.setWidgetState) = none →
        (setState inst su).calls = [] ∧
        (setState inst su).result = Except.ok ()) := by
  cases hw : winGet inst.host (fun o => o.setWidgetState) <;>
    cases su <;> simp [setState, applyStateOrUpdater, hw]

/-- A concrete host that only exposes the persistence action. -/
def persistHost : WindowOpenAI Int Unit :=
  { setWidgetState := some (fun _ => Except.ok ()) }

/-- A concrete host exposing no actions and no data fields. -/
def bareHost : WindowOpenAI Int Unit := {}

/-- C2 witness: both branches at concrete instances — a host exposing
`setWidgetState` (called once with the computed value, completion returned)
and a host without it (no call, success). -/
theorem setState_contract_witness :
    ((setState ({ host := some persistHost, localState := some 3 } :
            WidgetInst Int Unit)
          (.updater (fun prev => prev.getD 0 + 1))).calls
        = [HostCall.setWidgetState 4] ∧
      (setState ({ host := some persistHost, localState := some 3 } :
            WidgetInst Int Unit)
          (.updater (fun prev => prev.getD 0 + 1))).result = Except.ok ()) ∧
    ((setState ({ host := some bareHost, localState := some 3 } :
            WidgetInst Int Unit) (.value 9)).calls = [] ∧
      (setState ({ host := some bareHost, localState := some 3 } :
            WidgetInst Int Unit) (.value 9)).result = Except.ok ()) :=
  ⟨(setState_contract { host := some persistHost, localState := some 3 }
        (.updater (fun prev => prev.getD 0 + 1))).2.2.1
      (fun _ => Except.ok ()) rfl,
    (setState_contract { host := some bareHost, localState := some 3 }
        (.value 9)).2.2.2 rfl⟩

/-- C3: for each of the four delegating actions, if the host global or the
specific host method is absent, the action throws `HostUnavailable` with no
side effect (no host call, instance untouched); if the method is present,
the action delegates exactly once and passes through the host's outcome —
successes unchanged, failures unwrapped. -/
theorem delegating_actions_contract (inst : WidgetInst TState ε)
    (name : String) (args : Props) (prompt href : String)
    (mode : DisplayMode) :
    ((winGet inst.host (fun o => o.callTool) = none →
        (callTool inst name args).inst = inst ∧
        (callTool inst name args).calls = [] ∧
        (callTool inst name args).result = Except.error
          (.hostUnavailable "window.openai.callTool is not available")) ∧
      (∀ f, winGet inst.host (fun o => o.callTool) = some f →
        (callTool inst name args).inst = inst ∧
        (callTool inst name args).calls = [HostCall.callTool name args] ∧
        (callTool inst name args).result = liftHost (f name args) ∧
        (∀ v, f name args = Except.ok v →
          (callTool inst name args).result = Except.ok v) ∧
        (∀ e, f name args = Except.error e →
          (callTool inst name args).result
            = Except.error (.hostFailure e)))) ∧
    ((winGet inst.host (fun o => o.sendFollowUpMessage) = none →
        (sendFollowUpMessage inst prompt).inst = inst ∧
        (sendFollowUpMessage inst prompt).calls = [] ∧
        (sendFollowUpMessage inst prompt).result = Except.error
          (.hostUnavailable
            "window.openai.sendFollowUpMessage is not available")) ∧
      (∀ f, winGet inst.host (fun o => o.sendFollowUpMessage) = some f →
        (sendFollowUpMessage inst prompt).inst = inst ∧
        (sendFollowUpMessage inst prompt).calls
          = [HostCall.sendFollowUpMessage prompt] ∧
        (sendFollowUpMessage inst prompt).result = liftHost (f prompt) ∧
        (∀ v, f prompt = Except.ok v →
          (sendFollowUpMessage inst prompt).result = Except.ok v) ∧
        (∀ e, f prompt = Except.error e →
          (sendFollowUpMessage inst prompt).result
            = Except.error (.hostFailure e)))) ∧
    ((winGet inst.host (fun o => o.openExternal) = none →
        (openExternal inst href).inst = inst ∧
        (openExternal inst href).calls = [] ∧
        (openExternal inst href).result = Except.error
          (.hostUnavailable "window.openai.openExternal is not available")) ∧
      (∀ f, winGet inst.host (fun o => o.openExternal) = some f →
        (openExternal inst href).inst = inst ∧
        (openExternal inst href).calls = [HostCall.openExternal href] ∧
        (openExternal inst href).result = liftHost (f href) ∧
        (∀ v, f href = Except.ok v →
          (openExternal inst href).result = Except.ok v) ∧
        (∀ e, f href = Except.error e →
          (openExternal inst href).result
            = Except.error (.hostFailure e)))) ∧
    ((winGet inst.host (fun o => o.requestDisplayMode) = none →
        (requestDisplayMode inst mode).inst = inst ∧
        (requestDisplayMode inst mode).calls = [] ∧
        (requestDisplayMode inst mode).result = Except.error
          (.hostUnavailable
            "window.openai.requestDisplayMode is not available")) ∧
      (∀ f, winGet inst.host (fun o => o.requestDisplayMode) = some f →
        (requestDisplayMode inst mode).inst = inst ∧
        (requestDisplayMode inst mode).calls
          = [HostCall.requestDisplayMode mode] ∧
        (requestDisplayMode inst mode).result = liftHost (f mode) ∧
        (∀ g, f mode = Except.ok g →
          (requestDisplayMode inst mode).result = Except.ok g) ∧
        (∀ e, f mode = Except.error e →
          (requestDisplayMode inst mode).result
            = Except.error (.hostFailure e)))) := by
  refine ⟨⟨?_, ?_⟩, ⟨?_, ?_⟩, ⟨?_, ?_⟩, ⟨?_, ?_⟩⟩ <;>
    first
      | (intro h
         simp [callTool, sendFollowUpMessage, openExternal,
           requestDisplayMode, h])
      | (intro f h
         refine ⟨?_, ?_, ?_, fun v hv => ?_, fun e he => ?_⟩ <;>
           simp_all [callTool, sendFollowUpMessage, openExternal,
             requestDisplayMode, liftHost])

/-- Concrete host `callTool` returning an empty successful response. -/
def ctFun : String → Props → Except Unit CallToolResponse :=
  fun _ _ => Except.ok { content := [], isError := none }

/-- Concrete host `sendFollowUpMessage` that succeeds. -/
def sfFun : String → Except Unit Unit := fun _ => Except.ok ()

/-- Concrete host `openExternal` that fails (the host throwing). -/
def oeFun : String → Except Unit Unit := fun _ => Except.error ()

/-- Concrete host `requestDisplayMode` granting `fullscreen` whatever was
requested. -/
def rdFun : DisplayMode → Except Unit DisplayMode :=
  fun _ => Except.ok DisplayMode.fullscreen

/-- A concrete host exposing all four delegated actions. -/
def fullHost : WindowOpenAI Int Unit :=
  { callTool := some ctFun, sendFollowUpMessage := some sfFun,
    openExternal := some oeFun, requestDisplayMode := some rdFun }

/-- An instance seeing that host. -/
def fullInst : WidgetInst Int Unit :=
  { host := some fullHost, localState := none }

/-- An instance with no host at all (standalone mode). -/
def absentInst : WidgetInst Int Unit := { host := none, localState := none }

/-- C3 witness: all four actions throw `HostUnavailable` with an empty
trace on the hostless instance; on a fully-equipped host each delegates
once and passes the host's outcome through (including `openExternal`'s
failure, unwrapped). -/
theorem delegating_actions_contract_witness :
    ((callTool absentInst "t" []).result = Except.error
        (.hostUnavailable "window.openai.callTool is not available") ∧
      (callTool absentInst "t" []).calls = [] ∧
      (sendFollowUpMessage absentInst "p").result = Except.error
        (.hostUnavailable
          "window.openai.sendFollowUpMessage is not available") ∧
      (openExternal absentInst "h").result = Except.error
        (.hostUnavailable "window.openai.openExternal is not available") ∧
      (requestDisplayMode absentInst DisplayMode.pip).result = Except.error
        (.hostUnavailable
          "window.openai.requestDisplayMode is not available")) ∧
    ((callTool fullInst "t" []).calls = [HostCall.callTool "t" []] ∧
      (callTool fullInst "t" []).result
        = Except.ok { content := [], isError := none } ∧
      (sendFollowUpMessage fullInst "p").calls
        = [HostCall.sendFollowUpMessage "p"] ∧
      (openExternal fullInst "h").result
        = Except.error (.hostFailure ()) ∧
      (requestDisplayMode fullInst DisplayMode.pip).result
        = Except.ok DisplayMode.fullscreen) := by
  have hA := delegating_actions_contract absentInst "t" [] "p" "h"
    DisplayMode.pip
  have hF := delegating_actions_contract fullInst "t" [] "p" "h"
    DisplayMode.pip
  refine ⟨⟨?_, ?_, ?_, ?_, ?_⟩, ?_, ?_, ?_, ?_, ?_⟩
  · exact (hA.1.1 rfl).2.2
  · exact (hA.1.1 rfl).2.1
  · exact (hA.2.1.1 rfl).2.2
  · exact (hA.2.2.1.1 rfl).2.2
  · exact (hA.2.2.2.1 rfl).2.2
  · exact (hF.1.2 ctFun rfl).2.1
  · exact (hF.1.2 ctFun rfl).2.2.2.1 _ rfl
  · exact (hF.2.1.2 sfFun rfl).2.1
  · exact (hF.2.2.1.2 oeFun rfl).2.2.2.2 () rfl
  · exact (hF.2.2.2.2 rdFun rfl).2.2.2.1 DisplayMode.fullscreen rfl

/-- C4: the props projection returns the host's `toolInput` whenever it is
present — exactly that value, never merged with the default — else the
caller-supplied default when one was given, else the empty mapping.  (The
projection is a pure function of the host snapshot and the default by
construction.) -/
theorem props_projection (host : Option (WindowOpenAI TState ε))
    (d : Option Props) (s : Option TState) :
    (∀ t, winGet host (fun o => o.toolInput) = some t →
        (useWidgetView host d s).props = t) ∧
    (winGet host (fun o => o.toolInput) = none →
        (∀ dp, d = some dp → (useWidgetView host d s).props = dp) ∧
        (d = none → (useWidgetView host d s).props = [])) := by
  cases d <;> constructor <;>
    first
      | (intro t ht; simp [useWidgetView, ht])
      | (intro ht; simp [useWidgetView, ht])

/-- The spec's example tool input `{city:"Paris", temperature:22,
weather:"sunny"}`. -/
def parisProps : Props :=
  [("city", JsVal.str "Paris"), ("temperature", JsVal.num 22),
    ("weather", JsVal.str "sunny")]

/-- The example widget's default props. -/
def defaultWeatherProps : Props :=
  [("city", JsVal.str "Unknown"), ("temperature", JsVal.num 0),
    ("weather", JsVal.str "cloudy")]

/-- A host whose `toolInput` is the Paris example. -/
def parisHost : WindowOpenAI Int Unit := { toolInput := some parisProps }

/-- C4 witness: with the Paris `toolInput` present, props are exactly the
Paris mapping even though a different default was supplied; with no host,
the default is used; with no host and no default, props are empty. -/
theorem props_projection_witness :
    (useWidgetView (some parisHost) (some defaultWeatherProps) none).props
        = parisProps ∧
    (useWidgetView (none : Option (WindowOpenAI Int Unit))
        (some defaultWeatherProps) none).props = defaultWeatherProps ∧
    (useWidgetView (none : Option (WindowOpenAI Int Unit)) none none).props
        = [] :=
  ⟨(props_projection (some parisHost) (some defaultWeatherProps) none).1
      parisProps rfl,
    ((props_projection (none : Option (WindowOpenAI Int Unit))
        (some defaultWeatherProps) none).2 rfl).1 defaultWeatherProps rfl,
    ((props_projection (none : Option (WindowOpenAI Int Unit))
        none none).2 rfl).2 rfl⟩

/-- C5: the availability flag is `false` exactly when the host global is
absent, and the theme / display-mode / locale projections fall back to
`"light"`, `"inline"`, `"en"` when the host omits the field (in particular
when the host is absent altogether). -/
theorem availability_and_fallbacks (host : Option (WindowOpenAI TState ε))
    (d : Option Props) (s : Option TState) :
    ((useWidgetView host d s).isAvailable = false ↔ host = none) ∧
    (winGet host (fun o => o.theme) = none →
        (useWidgetView host d s).theme = Theme.light) ∧
    (winGet host (fun o => o.displayMode) = none →
        (useWidgetView host d s).displayMode = DisplayMode.inlineMode) ∧
    (winGet host (fun o => o.locale) = none →
        (useWidgetView host d s).locale = "en") := by
  refine ⟨?_, ?_, ?_, ?_⟩ <;> cases host <;>
    first
      | (intro h; simp_all [useWidgetView, winGet])
      | (simp [useWidgetView, winGet])

/-- C5 witness: a hostless instance has the flag `false` and all three
fallbacks; a host that omits `theme` still yields `"light"`. -/
theorem availability_and_fallbacks_witness :
    (useWidgetView (none : Option (WindowOpenAI Int Unit)) none
        none).isAvailable = false ∧
    (useWidgetView (none : Option (WindowOpenAI Int Unit)) none none).theme
        = Theme.light ∧
    (useWidgetView (none : Option (WindowOpenAI Int Unit)) none
        none).displayMode = DisplayMode.inlineMode ∧
    (useWidgetView (none : Option (WindowOpenAI Int Unit)) none none).locale
        = "en" ∧
    (useWidgetView (some bareHost) none none).theme = Theme.light :=
  ⟨(availability_and_fallbacks (none : Option (WindowOpenAI Int Unit))
        none none).1.mpr rfl,
    (availability_and_fallbacks (none : Option (WindowOpenAI Int Unit))
        none none).2.1 rfl,
    (availability_and_fallbacks (none : Option (WindowOpenAI Int Unit))
        none none).2.2.1 rfl,
    (availability_and_fallbacks (none : Option (WindowOpenAI Int Unit))
        none none).2.2.2 rfl,
    (availability_and_fallbacks (some bareHost) none none).2.1 rfl⟩

/-- If the payload mapping has no entry for `k`, `globals[k]` is
`undefined`. -/
theorem globalsGet_eq_none_of_not_mem (g : List (GlobalKey × Option JsVal))
    (k : GlobalKey) (h : ∀ p ∈ g, p.1 ≠ k) : globalsGet g k = none := by
  induction g with
  | nil => rfl
  | cons p rest ih =>
      rcases p with ⟨k', v⟩
      have hk : k' ≠ k := h (k', v) (List.mem_cons_self _ _)
      simp only [globalsGet, if_neg hk]
      exact ih fun q hq => h q (List.mem_cons_of_mem _ hq)

/-- C6: a change notification whose payload does not include the
subscribed field name does not invoke that subscription's invalidation
callback — dispatch filters by field name. -/
theorem notification_filters_by_field (w : EventTarget) (l : Listener)
    (d : SetGlobalsDetail) (h : ∀ p ∈ d.globals, p.1 ≠ l.key) :
    l ∉ dispatchSetGlobals w (some d) := by
  intro hmem
  have hfire : handleSetGlobal l.key (some d) = true :=
    (List.mem_filter.mp hmem).2
  simp [handleSetGlobal,
    globalsGet_eq_none_of_not_mem d.globals l.key h] at hfire

/-- The subscription on `theme` used in the scenario witnesses. -/
def themeListener : Listener := { id := 0, key := GlobalKey.theme }

/-- A window with exactly that subscription registered. -/
def window0 : EventTarget := { listeners := [themeListener] }

/-- A notification payload for `displayMode` only. -/
def displayModeOnlyDetail : SetGlobalsDetail :=
  { globals := [(GlobalKey.displayMode, some (JsVal.str "pip"))] }

/-- C6 witness: delivering a `displayMode`-only notification does not fire
the `theme` subscriber. -/
theorem notification_filters_by_field_witness :
    themeListener ∉ dispatchSetGlobals window0 (some displayModeOnlyDetail) :=
  notification_filters_by_field window0 themeListener displayModeOnlyDetail
    (by decide)

/-- C7: after running a subscription's unsubscribe function, its listener
registration is gone from the event target, and no later dispatched
notification (for the subscribed field or any other) ever fires it again. -/
theorem unsubscribe_removes_listener (w : EventTarget) (i : Nat)
    (detail : Option SetGlobalsDetail) :
    (removeEventListener w i).listeners.all (fun l => l.id != i) = true ∧
    (dispatchSetGlobals (removeEventListener w i) detail).all
        (fun l => l.id != i) = true := by
  constructor
  · rw [List.all_eq_true]
    intro l hl
    exact (List.mem_filter.mp hl).2
  · rw [List.all_eq_true]
    intro l hl
    exact (List.mem_filter.mp (List.mem_filter.mp hl).1).2

/-- C10: dispatch invalidates a registered subscription exactly when the
notification's payload carries a defined value for the subscribed field —
a field mapped to `undefined`, an omitted field, or a missing `detail`
never fire the callback. -/
theorem invalidation_only_on_defined_value (w : EventTarget) (l : Listener)
    (detail : Option SetGlobalsDetail) :
    l ∈ dispatchSetGlobals w detail ↔
      l ∈ w.listeners ∧ handleSetGlobal l.key detail = true := by
  simp [dispatchSetGlobals, List.mem_filter]

/-- C10 witness: a payload explicitly mapping `theme` to `undefined` does
not fire the registered `theme` subscriber. -/
theorem invalidation_only_on_defined_value_witness :
    themeListener ∉ dispatchSetGlobals window0
      (some { globals := [(GlobalKey.theme, none)] }) :=
  fun hmem => by
    have h := (invalidation_only_on_defined_value window0 themeListener
      (some { globals := [(GlobalKey.theme, none)] })).mp hmem
    simp [handleSetGlobal, globalsGet] at h

/-- C8: mounting `useWidgetState` with the host present, `widgetState`
initially unset and a default supplied: the mirror ends at the default and
the host persistence action is invoked exactly once, with the default as
argument. -/
theorem mount_applies_default (h : WindowOpenAI TState ε) (d : TState)
    (act : TState → Except ε Unit) (hws : h.widgetState = none)
    (hset : h.setWidgetState = some act) :
    (mountWidgetState (some h) (some d)).inst.localState = some d ∧
    (mountWidgetState (some h) (some d)).calls
        = [HostCall.setWidgetState d] := by
  simp [mountWidgetState, initLocalState, syncWidgetStateEffect, winGet,
    hws, hset, setState]

/-- A concrete host for list-valued widget state, exposing only the
persistence action (its `widgetState` is unset). -/
def persistListHost : WindowOpenAI (List Int) Unit :=
  { setWidgetState := some (fun _ => Except.ok ()) }

/-- C8 witness: the spec's scenario with default state `[]`. -/
theorem mount_applies_default_witness :
    (mountWidgetState (some persistListHost)
        (some ([] : List Int))).inst.localState = some [] ∧
    (mountWidgetState (some persistListHost)
        (some ([] : List Int))).calls = [HostCall.setWidgetState []] :=
  mount_applies_default persistListHost [] (fun _ => Except.ok ()) rfl rfl

/-- C9: when `window.openai?.setWidgetState` is unavailable (in particular
when the host is entirely absent), the mount-time initialization of
`useWidgetState` is skipped: no host call is made, the mirror keeps its
initial value (the supplied default is not applied even locally), and if
`widgetState` was unset the mirror is still `null` after mount. -/
theorem mount_skips_without_persistence
    (host : Option (WindowOpenAI TState ε)) (d : TState)
    (hset : winGet host (fun o => o.setWidgetState) = none) :
    (mountWidgetState host (some d)).calls = [] ∧
    (mountWidgetState host (some d)).inst.localState
        = winGet host (fun o => o.widgetState) ∧
    (winGet host (fun o => o.widgetState) = none →
        (mountWidgetState host (some d)).inst.localState = none) := by
  cases hws : winGet host (fun o => o.widgetState) <;>
    simp [mountWidgetState, initLocalState, syncWidgetStateEffect, hset, hws]

/-- A concrete host for list-valued widget state with no actions at all. -/
def bareListHost : WindowOpenAI (List Int) Unit := {}

/-- C9 witness: with no host, and with a host lacking the persistence
action, mounting with default `[]` makes no host call and leaves the
mirror `null`. -/
theorem mount_skips_without_persistence_witness :
    (mountWidgetState (none : Option (WindowOpenAI (List Int) Unit))
        (some [])).calls = [] ∧
    (mountWidgetState (none : Option (WindowOpenAI (List Int) Unit))
        (some [])).inst.localState = none ∧
    (mountWidgetState (some bareListHost) (some [])).calls = [] ∧
    (mountWidgetState (some bareListHost) (some [])).inst.localState
        = none :=
  ⟨(mount_skips_without_persistence
      (none : Option (WindowOpenAI (List Int) Unit)) [] rfl).1,
    (mount_skips_without_persistence
      (none : Option (WindowOpenAI (List Int) Unit)) [] rfl).2.2 rfl,
    (mount_skips_without_persistence (some bareListHost) [] rfl).1,
    (mount_skips_without_persistence (some bareListHost) [] rfl).2.2 rfl⟩

end WidgetBridge
